import Mathlib

/-!
Shallow embedding of the XcmWallet balance/fee/transfer resolution pipeline
(`src/unnamed/part_001`).  Chain and contract clients are modelled as an
explicit environment of oracles (`Env`); every wallet method becomes a pure
function of that environment, returning `Except Err _` where the source can
throw.  External library types (`CallType`, `AssetAmount`, config objects)
are embedded structurally; repository code that is referenced but not part of
the sources (`PolkadotService.getAssetDecimals`, `convertDecimals`,
`toBigInt`) is modelled from the spec, marked by a doc comment.
-/

namespace XcmApps

/-- Execution-mechanism tag of a built configuration (the library's
`CallType` enum has exactly these two members). -/
inductive CallType where
  | Evm
  | Substrate
deriving DecidableEq, Repr

/-- An asset descriptor, looked up by key. -/
structure Asset where
  key : String
deriving DecidableEq, Repr

/-- A chain descriptor together with its directory lookups
(`getBalanceAssetId`, `getAssetId`, `getAssetPalletInstance`). -/
structure AnyChain where
  key : String
  getBalanceAssetId : Asset → String
  getAssetId : Asset → String
  getAssetPalletInstance : Asset → Nat

/-- An amount of an asset in minor units, tagged with the decimal precision
it was produced under. -/
structure AssetAmount where
  asset : Asset
  amount : Int
  decimals : Nat
deriving DecidableEq, Repr

/-- `AssetAmount.fromAsset(asset, \x7bamount, decimals\x7d)`. -/
def AssetAmount.fromAsset (a : Asset) (amount : Int) (decimals : Nat) : AssetAmount :=
  ⟨a, amount, decimals⟩

/-- A raw balance snapshot produced by one resolver call. -/
structure Balance where
  key : String
  balance : Int
deriving DecidableEq, Repr

/-- Error kinds this layer can surface. -/
inductive Err where
  | ConfigNotFoundError
  | BalanceQueryError
  | AssetNotFoundError
  | MissingBuilderError
  | NoEvmClientError
  | InvalidAmountError
deriving DecidableEq, Repr

/-- A built contract-call configuration (ERC20 balance query or XTokens
transfer call). -/
structure ContractConfig where
  address : String
  func : String
  args : List String
deriving DecidableEq, Repr

/-- A built chain-storage query configuration. -/
structure SubstrateQueryConfig where
  module : String
  func : String
  args : List String
deriving DecidableEq, Repr

/-- The union `ContractConfig | SubstrateQueryConfig` returned by a balance
builder, discriminated by its `type` tag. -/
inductive BalanceBuilt where
  | evm (c : ContractConfig)
  | substrate (c : SubstrateQueryConfig)
deriving DecidableEq, Repr

/-- The `type` discriminator of a built balance configuration (fixed by the
library: contract configs are `Evm`, query configs are `Substrate`). -/
def BalanceBuilt.type : BalanceBuilt → CallType
  | .evm _ => .Evm
  | .substrate _ => .Substrate

/-- Models the unchecked TS cast `balanceConfig as ContractConfig`
(reinterprets fields when the value is in fact a query config). -/
def BalanceBuilt.asContract : BalanceBuilt → ContractConfig
  | .evm c => c
  | .substrate c => ⟨c.module, c.func, c.args⟩

/-- Models the unchecked TS cast `balanceConfig as SubstrateQueryConfig`. -/
def BalanceBuilt.asSubstrateQuery : BalanceBuilt → SubstrateQueryConfig
  | .substrate c => c
  | .evm c => ⟨c.address, c.func, c.args⟩

/-- Parameters handed to a balance builder. -/
structure BalanceBuildParams where
  address : String
  asset : String

/-- The declared fee section of an asset configuration. -/
structure FeeAssetConfig where
  asset : Asset
  balance : BalanceBuildParams → BalanceBuilt

/-- A JS decimal number literal, `mantissa / 10 ^ scale`. -/
structure DecimalNumber where
  mantissa : Int
  scale : Nat
deriving DecidableEq, Repr

/-- A destination-fee amount: a fixed numeric literal or a dynamic
fee-computation descriptor, identified by a builder id resolved against a
live destination-chain client. -/
inductive DestinationFeeAmount where
  | fixed (n : DecimalNumber)
  | builder (id : String)

/-- The `destinationFee` section of an asset configuration. -/
structure DestinationFeeConfig where
  amount : DestinationFeeAmount
  asset : Asset

/-- Parameters handed to the extrinsic builder by `buildTransfer`. -/
structure ExtrinsicBuildParams where
  address : String
  amount : Int
  asset : String
  destination : AnyChain
  fee : Int
  feeAsset : String
  palletInstance : Nat
  source : AnyChain

/-- Parameters handed to the contract builder by `buildTransfer`. -/
structure ContractBuildParams where
  address : String
  amount : Int
  asset : String
  destination : AnyChain
  fee : Int
  feeAsset : String

/-- A built chain extrinsic (library `ExtrinsicConfig`, `type = Substrate`). -/
structure ExtrinsicConfig where
  module : String
  func : String
  args : List String
deriving DecidableEq, Repr

/-- The union `ExtrinsicConfig | ContractConfig` returned by
`buildTransfer`, discriminated by its `type` tag. -/
inductive TransferCallConfig where
  | extrinsic (e : ExtrinsicConfig)
  | contract (c : ContractConfig)
deriving DecidableEq, Repr

/-- The `type` discriminator of a built transfer call (fixed by the library:
extrinsics are `Substrate`, contract calls are `Evm`). -/
def TransferCallConfig.type : TransferCallConfig → CallType
  | .extrinsic _ => .Substrate
  | .contract _ => .Evm

/-- The per-route asset configuration supplied by the config service. -/
structure AssetConfig where
  balance : BalanceBuildParams → BalanceBuilt
  destinationFee : DestinationFeeConfig
  fee : Option FeeAssetConfig
  extrinsic : Option (ExtrinsicBuildParams → ExtrinsicConfig)
  contract : Option (ContractBuildParams → ContractConfig)

/-- The source side of a transfer configuration. -/
structure SourceConfig where
  chain : AnyChain
  config : AssetConfig

/-- The destination side of a transfer configuration. -/
structure DestConfig where
  chain : AnyChain

/-- A resolved route configuration. -/
structure TransferConfig where
  source : SourceConfig
  destination : DestConfig
  asset : Asset

/-- One entry of a chain configuration: an asset with its balance builder. -/
structure ChainAssetConfig where
  asset : Asset
  balance : BalanceBuildParams → BalanceBuilt

/-- A chain configuration (`getAssetsConfigs`). -/
structure ChainConfig where
  assetsConfigs : List ChainAssetConfig

/-- The external world as oracles: route directory, registered EVM clients,
balance resolvers, the chain directory's decimal table, and fee
estimators.  All wallet methods are pure functions of this environment. -/
structure Env where
  routes : String → String → String → Option TransferConfig
  evmChains : List String
  erc20 : String → String → ContractConfig → Except Err Int
  substrate : String → String → SubstrateQueryConfig → Except Err Int
  decimals : String → String → Option Nat
  xtokensFee : ContractConfig → Int → Except Err Int
  substrateFee : String → String → ExtrinsicConfig → Except Err Int
  destFeeCall : String → String → String → Except Err Int

/-- Modelled from the spec: the decimal-normalizer `convertDecimals`
(§4.3), whose implementation lives in an external utility package, not under
the sources.  Upward conversion multiplies by `10 ^ (to - from)`; downward
conversion divides with integer truncation; negative amounts are rejected
with `InvalidAmountError`. -/
def convertDecimals (amount : Int) (fromDecimals toDecimals : Nat) : Except Err Int :=
  if amount < 0 then .error .InvalidAmountError
  else if fromDecimals < toDecimals then .ok (amount * 10 ^ (toDecimals - fromDecimals))
  else .ok (amount / 10 ^ (fromDecimals - toDecimals))

/-- Modelled from the spec: the external utility `toBigInt` converting a
fixed numeric fee literal to minor units at the given decimals (§4.4, §8:
`5.0` at 12 decimals is `5_000_000_000_000`). -/
def toBigInt (n : DecimalNumber) (decimals : Nat) : Int :=
  n.mantissa * 10 ^ decimals / 10 ^ n.scale

namespace XcmWallet

/-- `getEvmClient`: succeeds when an EVM client is registered for the chain,
throws otherwise. -/
def getEvmClient (env : Env) (chain : AnyChain) : Except Err Unit :=
  if chain.key ∈ env.evmChains then .ok () else .error .NoEvmClientError

/-- Modelled from the spec: `PolkadotService.getAssetDecimals` (the
`PolkadotService` module is referenced by the wallet but not among the
sources) looks the asset's decimal precision up in the chain directory of
the chain the service was created for; an unresolvable asset surfaces as
`AssetNotFoundError` (§4.4). -/
def getAssetDecimals (env : Env) (chain : AnyChain) (asset : Asset) : Except Err Nat :=
  match env.decimals chain.key asset.key with
  | some d => .ok d
  | none => .error .AssetNotFoundError

/-- `getErc20Balance`: contract-call balance resolver. -/
def getErc20Balance (env : Env) (asset : Asset) (chain : AnyChain)
    (config : ContractConfig) : Except Err Balance := do
  let _ ← getEvmClient env chain
  let b ← env.erc20 chain.key asset.key config
  pure ⟨asset.key, b⟩

/-- `getSubstrateBalance`: chain-storage-query balance resolver. -/
def getSubstrateBalance (env : Env) (asset : Asset) (chain : AnyChain)
    (config : SubstrateQueryConfig) : Except Err Balance := do
  let b ← env.substrate chain.key asset.key config
  pure ⟨asset.key, b⟩

/-- `XcmWallet.getBalance`: builds the balance configuration for the
source-side asset, dispatches on its `type` tag, then pairs the raw balance
with the decimals resolved for the asset on the source chain. -/
def getBalance (env : Env) (address : String) (tc : TransferConfig) :
    Except Err AssetAmount := do
  let chain := tc.source.chain
  let asset := tc.asset
  let assetId := chain.getBalanceAssetId asset
  let balanceConfig := tc.source.config.balance ⟨address, assetId⟩
  let bal ←
    if balanceConfig.type = CallType.Evm then
      getErc20Balance env asset chain balanceConfig.asContract
    else
      getSubstrateBalance env asset chain balanceConfig.asSubstrateQuery
  let decimals ← getAssetDecimals env chain asset
  pure (AssetAmount.fromAsset asset bal.balance decimals)

/-- `XcmWallet.getFeeBalance`: when a fee asset is declared, resolves its
balance through the substrate resolver (the source casts the built config
unchecked); otherwise falls back to a zero amount of the transfer asset. -/
def getFeeBalance (env : Env) (address : String) (tc : TransferConfig) :
    Except Err AssetAmount := do
  let chain := tc.source.chain
  let asset := tc.asset
  let assetId := chain.getBalanceAssetId asset
  let result ←
    match tc.source.config.fee with
    | some feeConfig => do
        let balanceConfig := feeConfig.balance ⟨address, assetId⟩
        let bal ← getSubstrateBalance env asset chain balanceConfig.asSubstrateQuery
        pure (feeConfig.asset, bal)
    | none =>
        pure (asset, (⟨asset.key, 0⟩ : Balance))
  let decimals ← getAssetDecimals env chain result.1
  pure (AssetAmount.fromAsset result.1 result.2.balance decimals)

/-- `XcmWallet.getDestinationFee`: a fixed numeric fee is converted to minor
units at destination decimals; a dynamic fee descriptor is invoked against a
live destination-chain client. -/
def getDestinationFee (env : Env) (tc : TransferConfig) : Except Err AssetAmount := do
  let dstFeeConfig := tc.source.config.destinationFee
  let asset := dstFeeConfig.asset
  let decimals ← getAssetDecimals env tc.destination.chain asset
  match dstFeeConfig.amount with
  | .fixed n =>
      pure (AssetAmount.fromAsset asset (toBigInt n decimals) decimals)
  | .builder id => do
      let feeBalance ← env.destFeeCall tc.destination.chain.key id
        (tc.destination.chain.getAssetId asset)
      pure (AssetAmount.fromAsset asset feeBalance decimals)

/-- `XcmWallet.buildTransfer`: the extrinsic builder is taken when present,
otherwise the contract builder; with neither configured the call fails
(`throw new Error("Either contract or extrinsic must be provided")`). -/
def buildTransfer (amount : Int) (dstAddress : String) (dstFee : AssetAmount)
    (tc : TransferConfig) : Except Err TransferCallConfig :=
  let config := tc.source.config
  let assetId := tc.source.chain.getAssetId tc.asset
  let feeAssetId := tc.source.chain.getAssetId dstFee.asset
  match config.extrinsic with
  | some build =>
      let palletInstance := tc.source.chain.getAssetPalletInstance tc.asset
      .ok (.extrinsic (build ⟨dstAddress, amount, assetId, tc.destination.chain,
        dstFee.amount, feeAssetId, palletInstance, tc.source.chain⟩))
  | none =>
      match config.contract with
      | some build =>
          .ok (.contract (build ⟨dstAddress, amount, assetId,
            tc.destination.chain, dstFee.amount, feeAssetId⟩))
      | none => .error .MissingBuilderError

/-- `XcmWallet.getSourceFee`: resolves the fee-display decimals on the
source chain, builds the prospective transfer call, then estimates the fee:
through the XTokens contract estimator with an 18-decimal downscale when the
built call is a contract call, through the chain-native estimator
otherwise. -/
def getSourceFee (env : Env) (amount : Int) (srcAddress dstAddress : String)
    (dstFee : AssetAmount) (tc : TransferConfig) : Except Err AssetAmount := do
  let chain := tc.source.chain
  let decimals ← getAssetDecimals env chain dstFee.asset
  let transfer ← buildTransfer amount dstAddress dstFee tc
  let fee ←
    if transfer.type = CallType.Evm then do
      let _ ← getEvmClient env chain
      let raw ← env.xtokensFee
        (match transfer with
          | .contract c => c
          | .extrinsic e => ⟨e.module, e.func, e.args⟩) amount
      convertDecimals raw 18 decimals
    else
      match transfer with
      | .extrinsic e => env.substrateFee chain.key srcAddress e
      | .contract c => env.substrateFee chain.key srcAddress ⟨c.address, c.func, c.args⟩
  pure (AssetAmount.fromAsset dstFee.asset fee decimals)

/-- `getTransferConfig`: route resolution through the config service. -/
def getTransferConfig (env : Env) (srcChain dstChain : AnyChain) (asset : Asset) :
    Except Err TransferConfig :=
  match env.routes srcChain.key dstChain.key asset.key with
  | some tc => .ok tc
  | none => .error .ConfigNotFoundError

/-- `XcmWallet.getSourceData`: resolves the route, computes balance, fee
balance, destination fee and source fee in order (each only logged by the
source), and completes with no return value — the TS method body contains no
return statement, so the promise resolves to `undefined`. -/
def getSourceData (env : Env) (srcAddr : String) (srcChain : AnyChain)
    (dstAddr : String) (dstChain : AnyChain) (asset : Asset) : Except Err Unit := do
  let transferConfig ← getTransferConfig env srcChain dstChain asset
  let balance ← getBalance env srcAddr transferConfig
  let _feeBalance ← getFeeBalance env srcAddr transferConfig
  let destinationFee ← getDestinationFee env transferConfig
  let _sourceFee ← getSourceFee env balance.amount srcAddr dstAddr destinationFee
    transferConfig
  pure ()

/-- `getBalanceConfigs`: builds the balance configuration of every asset
configured for the chain, keyed by asset key. -/
def getBalanceConfigs (srcAddr : String) (srcChain : AnyChain)
    (srcChainConfig : ChainConfig) : List (String × BalanceBuilt) :=
  srcChainConfig.assetsConfigs.map fun c =>
    (c.asset.key, c.balance ⟨srcAddr, srcChain.getBalanceAssetId c.asset⟩)

/-- An underlying subscription started by `subscribeBalance`. -/
inductive Subscription where
  | erc20 (assetKey : String) (config : ContractConfig)
  | substrate (assetKey : String) (config : SubstrateQueryConfig)
deriving DecidableEq, Repr

/-- The asset key an underlying subscription was started for. -/
def Subscription.assetKey : Subscription → String
  | .erc20 k _ => k
  | .substrate k _ => k

/-- `XcmWallet.subscribeBalance`: filters the built configurations by tag,
starts a contract-call subscription for every `Evm`-tagged one (each
requiring a registered EVM client) and a chain-query subscription for every
`Substrate`-tagged one, and merges them into one stream (modelled as the
list of underlying subscriptions in merge order). -/
def subscribeBalance (env : Env) (address : String) (chain : AnyChain)
    (chainConfig : ChainConfig) : Except Err (List Subscription) := do
  let configs := getBalanceConfigs address chain chainConfig
  let erc20Subs ← (configs.filter fun p => p.2.type == CallType.Evm).mapM
    (fun p => do
      let _ ← getEvmClient env chain
      pure (Subscription.erc20 p.1 p.2.asContract))
  let substrateSubs := (configs.filter fun p => p.2.type == CallType.Substrate).map
    (fun p => Subscription.substrate p.1 p.2.asSubstrateQuery)
  pure (erc20Subs ++ substrateSubs)

end XcmWallet

/-! ### Concrete fixtures

A two-chain world used by witnesses and counterexamples: `chainA` is
chain-native with 12-decimal assets, `chainB` is an EVM parachain with
18-decimal assets, `assetX` is routed from `chainA` to `chainB`. -/

/-- The transferred asset of the fixtures. -/
def assetX : Asset := ⟨"X"⟩

/-- A distinct fee asset used by fee-balance fixtures. -/
def assetFee : Asset := ⟨"FEE"⟩

/-- The 12-decimal source chain of the fixtures. -/
def chainA : AnyChain :=
  ⟨"chainA", fun a => a.key, fun a => a.key, fun _ => 50⟩

/-- The 18-decimal EVM destination chain of the fixtures. -/
def chainB : AnyChain :=
  ⟨"chainB", fun a => a.key, fun a => a.key, fun _ => 50⟩

/-- A substrate balance builder fixture. -/
def substrateBalanceBuilder : BalanceBuildParams → BalanceBuilt := fun p =>
  .substrate ⟨"tokens", "accounts", [p.address, p.asset]⟩

/-- A contract balance builder fixture. -/
def evmBalanceBuilder : BalanceBuildParams → BalanceBuilt := fun p =>
  .evm ⟨"0xerc20", "balanceOf", [p.address, p.asset]⟩

/-- An extrinsic builder fixture recording its parameters in the call args. -/
def extrinsicBuilderFx : ExtrinsicBuildParams → ExtrinsicConfig := fun p =>
  ⟨"xTokens", "transfer",
    [p.address, toString p.amount, p.asset, p.destination.key,
     toString p.fee, p.feeAsset, toString p.palletInstance, p.source.key]⟩

/-- A contract builder fixture recording its parameters in the call args. -/
def contractBuilderFx : ContractBuildParams → ContractConfig := fun p =>
  ⟨"0xxtokens", "transfer",
    [p.address, toString p.amount, p.asset, p.destination.key,
     toString p.fee, p.feeAsset]⟩

/-- Asset configuration of the substrate-mechanism fixture route: substrate
balance query, no declared fee asset, fixed destination fee `5.0`, extrinsic
builder only. -/
def assetConfigA : AssetConfig where
  balance := substrateBalanceBuilder
  destinationFee := ⟨.fixed ⟨5, 0⟩, assetX⟩
  fee := none
  extrinsic := some extrinsicBuilderFx
  contract := none

/-- The fixture route `chainA → chainB` for `assetX`. -/
def tcA : TransferConfig where
  source := ⟨chainA, assetConfigA⟩
  destination := ⟨chainB⟩
  asset := assetX

/-- Decimal table of the fixture world: every asset has 12 decimals on
`chainA` and 18 on `chainB`. -/
def decimalsFx : String → String → Option Nat := fun c _ =>
  if c = "chainA" then some 12 else if c = "chainB" then some 18 else none

/-- The fixture environment: the route above, a substrate balance of `5`,
an ERC20 balance of `7`, an EVM client for both chains, an XTokens fee quote
of `21_000_000_000_000_000` wei and a chain-native fee of `100`. -/
def envA : Env where
  routes := fun s d a =>
    if s = "chainA" && d = "chainB" && a = "X" then some tcA else none
  evmChains := ["chainA", "chainB"]
  erc20 := fun _ _ _ => .ok 7
  substrate := fun _ _ _ => .ok 5
  decimals := decimalsFx
  xtokensFee := fun _ _ => .ok 21000000000000000
  substrateFee := fun _ _ _ => .ok 100
  destFeeCall := fun _ _ _ => .ok 42

end XcmApps

namespace XcmApps

open XcmWallet

/-- A declared fee-asset section used by fee-balance fixtures. -/
def feeConfigFx : FeeAssetConfig := ⟨assetFee, substrateBalanceBuilder⟩

/-- Asset configuration with a declared fee asset. -/
def assetConfigB : AssetConfig := { assetConfigA with fee := some feeConfigFx }

/-- Fixture route with a declared fee asset. -/
def tcB : TransferConfig where
  source := ⟨chainA, assetConfigB⟩
  destination := ⟨chainB⟩
  asset := assetX

/-- Asset configuration with only the contract builder (EVM mechanism). -/
def assetConfigC : AssetConfig :=
  { assetConfigA with extrinsic := none, contract := some contractBuilderFx }

/-- Fixture route whose transfer call is contract-built. -/
def tcC : TransferConfig where
  source := ⟨chainA, assetConfigC⟩
  destination := ⟨chainB⟩
  asset := assetX

/-- Asset configuration with neither builder (defective route). -/
def assetConfigN : AssetConfig :=
  { assetConfigA with extrinsic := none, contract := none }

/-- Fixture route with neither builder configured. -/
def tcN : TransferConfig where
  source := ⟨chainA, assetConfigN⟩
  destination := ⟨chainB⟩
  asset := assetX

/-- Asset configuration carrying both builders. -/
def assetConfigBoth : AssetConfig :=
  { assetConfigA with contract := some contractBuilderFx }

/-- Fixture route carrying both builders. -/
def tcBoth : TransferConfig where
  source := ⟨chainA, assetConfigBoth⟩
  destination := ⟨chainB⟩
  asset := assetX

/-- Destination-fee amount used when exercising `buildTransfer` and
`getSourceFee` on the fixtures. -/
def dstFeeFx : AssetAmount := AssetAmount.fromAsset assetX 1 18

/-- Decidable equality of fallible results. -/
instance {ε α : Type} [DecidableEq ε] [DecidableEq α] : DecidableEq (Except ε α) :=
  fun a b =>
    match a, b with
    | .ok x, .ok y =>
        if h : x = y then isTrue (by rw [h]) else isFalse (by simp [h])
    | .error x, .error y =>
        if h : x = y then isTrue (by rw [h]) else isFalse (by simp [h])
    | .ok _, .error _ => isFalse (by simp)
    | .error _, .ok _ => isFalse (by simp)

/-- Evaluation of `getBalance` when the built configuration is a contract
call and the resolvers answer. -/
theorem getBalance_evm_eval (env : Env) (address : String) (tc : TransferConfig)
    (d : Nat) (r : Int) (c : ContractConfig)
    (hb : tc.source.config.balance
        ⟨address, tc.source.chain.getBalanceAssetId tc.asset⟩ = .evm c)
    (hm : tc.source.chain.key ∈ env.evmChains)
    (hr : env.erc20 tc.source.chain.key tc.asset.key c = .ok r)
    (hd : env.decimals tc.source.chain.key tc.asset.key = some d) :
    getBalance env address tc = .ok (AssetAmount.fromAsset tc.asset r d) := by
  simp only [getBalance, getErc20Balance, getEvmClient, getAssetDecimals, hb,
    BalanceBuilt.type, BalanceBuilt.asContract, if_pos hm, hr, hd, reduceIte,
    bind, Except.bind, pure, Except.pure]

/-- Evaluation of `getBalance` when the built configuration is a chain
query and the resolver answers. -/
theorem getBalance_substrate_eval (env : Env) (address : String)
    (tc : TransferConfig) (d : Nat) (r : Int) (c : SubstrateQueryConfig)
    (hb : tc.source.config.balance
        ⟨address, tc.source.chain.getBalanceAssetId tc.asset⟩ = .substrate c)
    (hr : env.substrate tc.source.chain.key tc.asset.key c = .ok r)
    (hd : env.decimals tc.source.chain.key tc.asset.key = some d) :
    getBalance env address tc = .ok (AssetAmount.fromAsset tc.asset r d) := by
  simp only [getBalance, getSubstrateBalance, getAssetDecimals, hb,
    BalanceBuilt.type, BalanceBuilt.asSubstrateQuery, hr, hd, reduceIte,
    bind, Except.bind, pure, Except.pure]
  rw [if_neg (show ¬ (CallType.Substrate = CallType.Evm) by intro h; cases h)]

/-- Evaluation of `buildTransfer` when the extrinsic builder is present. -/
theorem buildTransfer_extrinsic_eval (amount : Int) (dstAddress : String)
    (dstFee : AssetAmount) (tc : TransferConfig)
    (b : ExtrinsicBuildParams → ExtrinsicConfig)
    (hb : tc.source.config.extrinsic = some b) :
    buildTransfer amount dstAddress dstFee tc
      = .ok (.extrinsic (b ⟨dstAddress, amount, tc.source.chain.getAssetId tc.asset,
          tc.destination.chain, dstFee.amount, tc.source.chain.getAssetId dstFee.asset,
          tc.source.chain.getAssetPalletInstance tc.asset, tc.source.chain⟩)) := by
  simp only [buildTransfer, hb]

/-- Evaluation of `buildTransfer` when only the contract builder is
present. -/
theorem buildTransfer_contract_eval (amount : Int) (dstAddress : String)
    (dstFee : AssetAmount) (tc : TransferConfig)
    (cb : ContractBuildParams → ContractConfig)
    (he : tc.source.config.extrinsic = none)
    (hc : tc.source.config.contract = some cb) :
    buildTransfer amount dstAddress dstFee tc
      = .ok (.contract (cb ⟨dstAddress, amount, tc.source.chain.getAssetId tc.asset,
          tc.destination.chain, dstFee.amount,
          tc.source.chain.getAssetId dstFee.asset⟩)) := by
  simp only [buildTransfer, he, hc]

/-- Evaluation of `buildTransfer` when neither builder is present. -/
theorem buildTransfer_none_eval (amount : Int) (dstAddress : String)
    (dstFee : AssetAmount) (tc : TransferConfig)
    (he : tc.source.config.extrinsic = none)
    (hc : tc.source.config.contract = none) :
    buildTransfer amount dstAddress dstFee tc = .error .MissingBuilderError := by
  simp only [buildTransfer, he, hc]

end XcmApps

namespace XcmApps

open XcmWallet

/-- C1: on a fully configured route every component of the source-data
computation succeeds — balance, fee balance, destination fee and source fee
are all computed — yet `getSourceData` completes with the unit value (the TS
method body has no return statement, so its promise resolves to
`undefined`): no record carrying the four `AssetAmount` results is
returned. -/
theorem getSourceData_returns_unit_not_record :
    getSourceData envA "alice" chainA "bob" chainB assetX = .ok () ∧
    getBalance envA "alice" tcA = .ok (AssetAmount.fromAsset assetX 5 12) ∧
    getFeeBalance envA "alice" tcA = .ok (AssetAmount.fromAsset assetX 0 12) ∧
    getDestinationFee envA tcA
      = .ok (AssetAmount.fromAsset assetX 5000000000000000000 18) ∧
    getSourceFee envA 5 "alice" "bob"
        (AssetAmount.fromAsset assetX 5000000000000000000 18) tcA
      = .ok (AssetAmount.fromAsset assetX 100 12) :=
  ⟨rfl, rfl, rfl, rfl, rfl⟩

/-- C2 counterexample: on the fixture route the raw chain-query balance is
`5`, the asset carries 12 decimals on the source chain and 18 on the
destination chain; `getBalance` returns the raw amount with the
source-chain decimals 12 — not the destination-chain-normalized
representation, which would carry destination decimals 18 and the upscaled
amount `5_000_000`. -/
theorem getBalance_not_destination_normalized :
    getBalance envA "alice" tcA = .ok (AssetAmount.fromAsset assetX 5 12) ∧
    envA.decimals chainB.key assetX.key = some 18 ∧
    convertDecimals 5 12 18 = .ok 5000000 ∧
    getBalance envA "alice" tcA ≠ .ok (AssetAmount.fromAsset assetX 5000000 18) :=
  ⟨rfl, rfl, rfl, by decide⟩

/-- C2 (amended): for every route and address, `getBalance` dispatches on
the built balance configuration's execution-mechanism tag — contract-call
resolver for `Evm`, chain-query resolver for `Substrate` — and returns an
`AssetAmount` whose amount is the raw resolver balance unchanged, with the
decimals resolved for the asset on the source chain against the chain
directory. -/
theorem getBalance_dispatch_raw_source_decimals (env : Env) (address : String)
    (tc : TransferConfig) (d : Nat) (r : Int)
    (hd : env.decimals tc.source.chain.key tc.asset.key = some d) :
    ((tc.source.config.balance ⟨address, tc.source.chain.getBalanceAssetId tc.asset⟩).type
        = CallType.Evm →
      tc.source.chain.key ∈ env.evmChains →
      env.erc20 tc.source.chain.key tc.asset.key
          (tc.source.config.balance
            ⟨address, tc.source.chain.getBalanceAssetId tc.asset⟩).asContract = .ok r →
      getBalance env address tc = .ok (AssetAmount.fromAsset tc.asset r d)) ∧
    ((tc.source.config.balance ⟨address, tc.source.chain.getBalanceAssetId tc.asset⟩).type
        = CallType.Substrate →
      env.substrate tc.source.chain.key tc.asset.key
          (tc.source.config.balance
            ⟨address, tc.source.chain.getBalanceAssetId tc.asset⟩).asSubstrateQuery = .ok r →
      getBalance env address tc = .ok (AssetAmount.fromAsset tc.asset r d)) := by
  constructor
  · intro ht hm hr
    cases hb : tc.source.config.balance
        ⟨address, tc.source.chain.getBalanceAssetId tc.asset⟩ with
    | evm c =>
        rw [hb] at hr
        exact getBalance_evm_eval env address tc d r c hb hm hr hd
    | substrate c => rw [hb] at ht; cases ht
  · intro ht hr
    cases hb : tc.source.config.balance
        ⟨address, tc.source.chain.getBalanceAssetId tc.asset⟩ with
    | evm c => rw [hb] at ht; cases ht
    | substrate c =>
        rw [hb] at hr
        exact getBalance_substrate_eval env address tc d r c hb hr hd

/-- Witness for the amended C2 theorem at the fixture route (chain-query
branch). -/
theorem getBalance_dispatch_raw_source_decimals_witness :
    envA.decimals tcA.source.chain.key tcA.asset.key = some 12 ∧
    (tcA.source.config.balance
        ⟨"alice", tcA.source.chain.getBalanceAssetId tcA.asset⟩).type
      = CallType.Substrate ∧
    envA.substrate tcA.source.chain.key tcA.asset.key
        (tcA.source.config.balance
          ⟨"alice", tcA.source.chain.getBalanceAssetId tcA.asset⟩).asSubstrateQuery
      = .ok 5 ∧
    getBalance envA "alice" tcA = .ok (AssetAmount.fromAsset assetX 5 12) :=
  ⟨rfl, rfl, rfl,
    (getBalance_dispatch_raw_source_decimals envA "alice" tcA 12 5 rfl).2 rfl rfl⟩

/-- C3: for a route whose built balance configuration is tagged chain-query
and whose asset resolves to the same 12-decimal precision on the source
chain, `getBalance` returns the raw chain-query balance unchanged and the
returned decimals equal 12. -/
theorem getBalance_chain_query_same_decimals (env : Env) (address : String)
    (tc : TransferConfig) (r : Int) (c : SubstrateQueryConfig)
    (hb : tc.source.config.balance
        ⟨address, tc.source.chain.getBalanceAssetId tc.asset⟩ = .substrate c)
    (hr : env.substrate tc.source.chain.key tc.asset.key c = .ok r)
    (hd : env.decimals tc.source.chain.key tc.asset.key = some 12) :
    getBalance env address tc = .ok (AssetAmount.fromAsset tc.asset r 12) :=
  getBalance_substrate_eval env address tc 12 r c hb hr hd

/-- Witness for C3 at the fixture route. -/
theorem getBalance_chain_query_same_decimals_witness :
    tcA.source.config.balance
        ⟨"alice", tcA.source.chain.getBalanceAssetId tcA.asset⟩
      = .substrate ⟨"tokens", "accounts", ["alice", "X"]⟩ ∧
    envA.substrate tcA.source.chain.key tcA.asset.key
        ⟨"tokens", "accounts", ["alice", "X"]⟩ = .ok 5 ∧
    envA.decimals tcA.source.chain.key tcA.asset.key = some 12 ∧
    getBalance envA "alice" tcA = .ok (AssetAmount.fromAsset assetX 5 12) :=
  ⟨rfl, rfl, rfl,
    getBalance_chain_query_same_decimals envA "alice" tcA 5
      ⟨"tokens", "accounts", ["alice", "X"]⟩ rfl rfl rfl⟩

end XcmApps

namespace XcmApps

open XcmWallet

/-- C4: for every route declaring a distinct fee asset, `getFeeBalance`
resolves the fee balance through the chain-query resolver only — the result
never depends on the contract-call resolver — and returns an `AssetAmount`
carrying the fee asset with the fee asset's decimals as resolved on the
source chain. -/
theorem getFeeBalance_fee_asset_chain_query (env : Env) (address : String)
    (tc : TransferConfig) (feeConfig : FeeAssetConfig)
    (hf : tc.source.config.fee = some feeConfig) :
    (∀ b d, env.substrate tc.source.chain.key tc.asset.key
          (feeConfig.balance
            ⟨address, tc.source.chain.getBalanceAssetId tc.asset⟩).asSubstrateQuery
        = .ok b →
      env.decimals tc.source.chain.key feeConfig.asset.key = some d →
      getFeeBalance env address tc
        = .ok (AssetAmount.fromAsset feeConfig.asset b d)) ∧
    (∀ f, getFeeBalance { env with erc20 := f } address tc
        = getFeeBalance env address tc) := by
  constructor
  · intro b d hr hd
    simp only [getFeeBalance, getSubstrateBalance, getAssetDecimals, hf, hr, hd,
      bind, Except.bind, pure, Except.pure]
  · intro f
    rfl

/-- Witness for C4 at the fee-declaring fixture route. -/
theorem getFeeBalance_fee_asset_chain_query_witness :
    tcB.source.config.fee = some feeConfigFx ∧
    envA.substrate tcB.source.chain.key tcB.asset.key
        (feeConfigFx.balance
          ⟨"alice", tcB.source.chain.getBalanceAssetId tcB.asset⟩).asSubstrateQuery
      = .ok 5 ∧
    envA.decimals tcB.source.chain.key feeConfigFx.asset.key = some 12 ∧
    getFeeBalance envA "alice" tcB = .ok (AssetAmount.fromAsset assetFee 5 12) :=
  ⟨rfl, rfl, rfl,
    (getFeeBalance_fee_asset_chain_query envA "alice" tcB feeConfigFx rfl).1
      5 12 rfl rfl⟩

/-- C7: for every route that declares no fee asset, `getFeeBalance` returns
a zero amount of the transfer asset at the transfer asset's resolved
decimals; the result depends on neither balance resolver (no query is
issued), and the only defaulting is this zero fallback — a failing decimal
lookup still propagates as `AssetNotFoundError`. -/
theorem getFeeBalance_zero_fallback (env : Env) (address : String)
    (tc : TransferConfig) (hf : tc.source.config.fee = none) :
    (∀ d, env.decimals tc.source.chain.key tc.asset.key = some d →
      getFeeBalance env address tc = .ok (AssetAmount.fromAsset tc.asset 0 d)) ∧
    (∀ f g, getFeeBalance { env with erc20 := f, substrate := g } address tc
        = getFeeBalance env address tc) ∧
    (env.decimals tc.source.chain.key tc.asset.key = none →
      getFeeBalance env address tc = .error .AssetNotFoundError) := by
  refine ⟨fun d hd => ?_, fun f g => ?_, fun hd => ?_⟩
  · simp only [getFeeBalance, getAssetDecimals, hf, hd,
      bind, Except.bind, pure, Except.pure]
  · simp only [getFeeBalance, getAssetDecimals, hf,
      bind, Except.bind, pure, Except.pure]
  · simp only [getFeeBalance, getAssetDecimals, hf, hd,
      bind, Except.bind, pure, Except.pure]

/-- Witness for C7 at the fixture route without a fee asset. -/
theorem getFeeBalance_zero_fallback_witness :
    tcA.source.config.fee = none ∧
    envA.decimals tcA.source.chain.key tcA.asset.key = some 12 ∧
    getFeeBalance envA "alice" tcA = .ok (AssetAmount.fromAsset assetX 0 12) :=
  ⟨rfl, rfl, (getFeeBalance_zero_fallback envA "alice" tcA rfl).1 12 rfl⟩

/-- C5: `buildTransfer` selects the branch matching the configured builder
— the extrinsic branch when the extrinsic builder alone is present, the
contract branch when the contract builder alone is present — and fails with
the missing-builder error when neither is configured. -/
theorem buildTransfer_exclusive_branches (amount : Int) (dstAddress : String)
    (dstFee : AssetAmount) (tc : TransferConfig) :
    (∀ b, tc.source.config.extrinsic = some b → tc.source.config.contract = none →
      buildTransfer amount dstAddress dstFee tc
        = .ok (.extrinsic (b ⟨dstAddress, amount, tc.source.chain.getAssetId tc.asset,
            tc.destination.chain, dstFee.amount, tc.source.chain.getAssetId dstFee.asset,
            tc.source.chain.getAssetPalletInstance tc.asset, tc.source.chain⟩))) ∧
    (∀ cb, tc.source.config.extrinsic = none → tc.source.config.contract = some cb →
      buildTransfer amount dstAddress dstFee tc
        = .ok (.contract (cb ⟨dstAddress, amount, tc.source.chain.getAssetId tc.asset,
            tc.destination.chain, dstFee.amount,
            tc.source.chain.getAssetId dstFee.asset⟩))) ∧
    (tc.source.config.extrinsic = none → tc.source.config.contract = none →
      buildTransfer amount dstAddress dstFee tc = .error .MissingBuilderError) :=
  ⟨fun b hb _ => buildTransfer_extrinsic_eval amount dstAddress dstFee tc b hb,
   fun cb he hc => buildTransfer_contract_eval amount dstAddress dstFee tc cb he hc,
   fun he hc => buildTransfer_none_eval amount dstAddress dstFee tc he hc⟩

/-- Witness for C5 at the fixture route with neither builder. -/
theorem buildTransfer_exclusive_branches_witness :
    tcN.source.config.extrinsic = none ∧
    tcN.source.config.contract = none ∧
    buildTransfer 5 "bob" dstFeeFx tcN = .error .MissingBuilderError :=
  ⟨rfl, rfl, (buildTransfer_exclusive_branches 5 "bob" dstFeeFx tcN).2.2 rfl rfl⟩

/-- C9: when both builders are present, `buildTransfer` deterministically
takes the extrinsic branch, and the contract builder is never invoked: the
result is unchanged under any replacement of the contract field. -/
theorem buildTransfer_extrinsic_precedence (amount : Int) (dstAddress : String)
    (dstFee : AssetAmount) (tc : TransferConfig)
    (b : ExtrinsicBuildParams → ExtrinsicConfig)
    (cb : ContractBuildParams → ContractConfig)
    (hb : tc.source.config.extrinsic = some b)
    (_hc : tc.source.config.contract = some cb) :
    buildTransfer amount dstAddress dstFee tc
      = .ok (.extrinsic (b ⟨dstAddress, amount, tc.source.chain.getAssetId tc.asset,
          tc.destination.chain, dstFee.amount, tc.source.chain.getAssetId dstFee.asset,
          tc.source.chain.getAssetPalletInstance tc.asset, tc.source.chain⟩)) ∧
    (∀ c2, buildTransfer amount dstAddress dstFee
        { tc with source.config.contract := c2 }
      = buildTransfer amount dstAddress dstFee tc) := by
  refine ⟨buildTransfer_extrinsic_eval amount dstAddress dstFee tc b hb, fun c2 => ?_⟩
  have h2 := buildTransfer_extrinsic_eval amount dstAddress dstFee
    { tc with source.config.contract := c2 } b hb
  exact h2.trans (buildTransfer_extrinsic_eval amount dstAddress dstFee tc b hb).symm

/-- Witness for C9 at the fixture route carrying both builders. -/
theorem buildTransfer_extrinsic_precedence_witness :
    tcBoth.source.config.extrinsic = some extrinsicBuilderFx ∧
    tcBoth.source.config.contract = some contractBuilderFx ∧
    buildTransfer 5 "bob" dstFeeFx tcBoth
      = .ok (.extrinsic (extrinsicBuilderFx
          ⟨"bob", 5, "X", chainB, 1, "X", 50, chainA⟩)) :=
  ⟨rfl, rfl,
    (buildTransfer_extrinsic_precedence 5 "bob" dstFeeFx tcBoth
      extrinsicBuilderFx contractBuilderFx rfl rfl).1⟩

end XcmApps

namespace XcmApps

open XcmWallet

/-- C6 counterexample: on an EVM-mechanism fixture route the contract fee
estimator quotes the raw 18-decimal fee `21_000_000_000_000_000`; scaling it
to the source chain's 12 decimals yields `21_000_000_000` — and
`getSourceFee` returns exactly that — not the `21_000_000` the claim
states. -/
theorem getSourceFee_scaling_example_refuted :
    envA.xtokensFee (contractBuilderFx ⟨"bob", 5, "X", chainB, 1, "X"⟩) 5
      = .ok 21000000000000000 ∧
    convertDecimals 21000000000000000 18 12 = .ok 21000000000 ∧
    getSourceFee envA 5 "alice" "bob" dstFeeFx tcC
      = .ok (AssetAmount.fromAsset assetX 21000000000 12) ∧
    convertDecimals 21000000000000000 18 12 ≠ .ok 21000000 ∧
    getSourceFee envA 5 "alice" "bob" dstFeeFx tcC
      ≠ .ok (AssetAmount.fromAsset assetX 21000000 12) :=
  ⟨rfl, rfl, rfl, by decide, by decide⟩

/-- C6 (amended): for every route whose configured mechanism is EVM (the
contract builder alone is present), `getSourceFee` first builds the
prospective transfer call and then estimates the fee through the
contract-call fee estimator, scaling the raw 18-decimal fee down to the
source chain's native decimal count by truncating division; in particular a
raw fee of `21_000_000_000_000_000` scaled to 12 decimals yields
`21_000_000_000`. -/
theorem getSourceFee_evm_scales_down (env : Env) (amount : Int)
    (srcAddress dstAddress : String) (dstFee : AssetAmount)
    (tc : TransferConfig) (cb : ContractBuildParams → ContractConfig)
    (d : Nat) (raw : Int)
    (he : tc.source.config.extrinsic = none)
    (hc : tc.source.config.contract = some cb)
    (hm : tc.source.chain.key ∈ env.evmChains)
    (hd : env.decimals tc.source.chain.key dstFee.asset.key = some d)
    (hraw : env.xtokensFee
        (cb ⟨dstAddress, amount, tc.source.chain.getAssetId tc.asset,
          tc.destination.chain, dstFee.amount,
          tc.source.chain.getAssetId dstFee.asset⟩) amount = .ok raw)
    (h0 : 0 ≤ raw) (hdle : d ≤ 18) :
    getSourceFee env amount srcAddress dstAddress dstFee tc
      = .ok (AssetAmount.fromAsset dstFee.asset (raw / 10 ^ (18 - d)) d) := by
  have hbt := buildTransfer_contract_eval amount dstAddress dstFee tc cb he hc
  simp only [getSourceFee, getAssetDecimals, getEvmClient, hd, hbt,
    TransferCallConfig.type, if_pos hm, hraw, convertDecimals,
    not_lt.mpr h0, not_lt.mpr hdle, reduceIte,
    bind, Except.bind, pure, Except.pure]

/-- Witness for the amended C6 theorem at the EVM fixture route, with the
spec's raw quote of `21_000_000_000_000_000` wei at 12 source decimals. -/
theorem getSourceFee_evm_scales_down_witness :
    tcC.source.config.extrinsic = none ∧
    tcC.source.config.contract = some contractBuilderFx ∧
    tcC.source.chain.key ∈ envA.evmChains ∧
    envA.decimals tcC.source.chain.key dstFeeFx.asset.key = some 12 ∧
    envA.xtokensFee (contractBuilderFx ⟨"bob", 5, "X", chainB, 1, "X"⟩) 5
      = .ok 21000000000000000 ∧
    getSourceFee envA 5 "alice" "bob" dstFeeFx tcC
      = .ok (AssetAmount.fromAsset assetX (21000000000000000 / 10 ^ (18 - 12)) 12) :=
  ⟨rfl, rfl, by decide, rfl, rfl,
    getSourceFee_evm_scales_down envA 5 "alice" "bob" dstFeeFx tcC
      contractBuilderFx 12 21000000000000000 rfl rfl (by decide) rfl rfl
      (by decide) (by decide)⟩

/-- C8 counterexample: the round trip is also lossless on a smaller-decimal
target when the scale factor divides the amount — converting `10` from 1
decimal to 0 and back returns `10` although `0 < 1` — so "equality iff
`d2 ≥ d1`" fails in the only-if direction. -/
theorem convertDecimals_roundtrip_iff_refuted :
    ¬ (∀ (n : Int) (d1 d2 : Nat), 0 ≤ n →
        ((convertDecimals n d1 d2).bind (fun m => convertDecimals m d2 d1)
          = .ok n ↔ d1 ≤ d2)) := by
  intro h
  exact absurd ((h 10 1 0 (by decide)).mp (by decide)) (by decide)

/-- C8 (amended): for integer `n ≥ 0`, converting from `d1` to `d2`
decimals and back yields a value `≤ n`, with equality iff `d2 ≥ d1` or
`10 ^ (d1 - d2)` divides `n`; upward conversion multiplies by
`10 ^ (d2 - d1)` exactly and downward conversion truncates. -/
theorem convertDecimals_roundtrip (n : Int) (d1 d2 : Nat) (hn : 0 ≤ n) :
    ∃ m k, convertDecimals n d1 d2 = .ok m ∧ convertDecimals m d2 d1 = .ok k ∧
      k ≤ n ∧
      (k = n ↔ (d1 ≤ d2 ∨ ((10:Int) ^ (d1 - d2)) ∣ n)) ∧
      (d1 ≤ d2 → m = n * 10 ^ (d2 - d1)) ∧
      (d2 < d1 → m = n / 10 ^ (d1 - d2)) := by
  have hn' : ¬ n < 0 := not_lt.mpr hn
  rcases lt_trichotomy d1 d2 with h | h | h
  · refine ⟨n * 10 ^ (d2 - d1), n, ?_, ?_, le_refl n, ?_, fun _ => rfl,
      fun h' => absurd h (not_lt.mpr h'.le)⟩
    · simp only [convertDecimals, if_neg hn', if_pos h]
    · have hm0 : ¬ (n * 10 ^ (d2 - d1) < 0) :=
        not_lt.mpr (mul_nonneg hn (by positivity))
      have h21 : ¬ d2 < d1 := not_lt.mpr h.le
      simp only [convertDecimals, if_neg hm0, if_neg h21]
      rw [Int.mul_ediv_cancel _ (by positivity)]
    · exact ⟨fun _ => Or.inl h.le, fun _ => rfl⟩
  · subst h
    refine ⟨n, n, ?_, ?_, le_refl n, ⟨fun _ => Or.inl le_rfl, fun _ => rfl⟩,
      fun _ => by rw [Nat.sub_self, pow_zero, mul_one],
      fun h' => absurd h' (lt_irrefl d1)⟩
    · simp only [convertDecimals, if_neg hn', if_neg (lt_irrefl d1),
        Nat.sub_self, pow_zero, Int.ediv_one]
    · simp only [convertDecimals, if_neg hn', if_neg (lt_irrefl d1),
        Nat.sub_self, pow_zero, Int.ediv_one]
  · have hpow : (0:ℤ) < 10 ^ (d1 - d2) := by positivity
    have hm0 : ¬ (n / 10 ^ (d1 - d2) < 0) :=
      not_lt.mpr (Int.ediv_nonneg hn hpow.le)
    refine ⟨n / 10 ^ (d1 - d2), n / 10 ^ (d1 - d2) * 10 ^ (d1 - d2), ?_, ?_,
      Int.ediv_mul_le n (ne_of_gt hpow), ?_,
      fun hle => absurd hle (not_le.mpr h), fun _ => rfl⟩
    · simp only [convertDecimals, if_neg hn', if_neg (not_lt.mpr h.le)]
    · simp only [convertDecimals, if_neg hm0, if_pos h]
    · constructor
      · intro hk
        exact Or.inr ⟨n / 10 ^ (d1 - d2), by rw [mul_comm]; exact hk.symm⟩
      · rintro (hle | hdvd)
        · exact absurd hle (not_le.mpr h)
        · exact Int.ediv_mul_cancel hdvd

/-- Witness for the amended C8 theorem at `n = 5`, `d1 = 2`, `d2 = 4`. -/
theorem convertDecimals_roundtrip_witness :
    (0:Int) ≤ 5 ∧
    (∃ m k, convertDecimals 5 2 4 = .ok m ∧ convertDecimals m 4 2 = .ok k ∧
      k ≤ 5 ∧
      (k = 5 ↔ ((2:Nat) ≤ 4 ∨ ((10:Int) ^ ((2:Nat) - 4)) ∣ 5)) ∧
      ((2:Nat) ≤ 4 → m = 5 * 10 ^ ((4:Nat) - 2)) ∧
      ((4:Nat) < 2 → m = 5 / 10 ^ ((2:Nat) - 4))) :=
  ⟨by decide, convertDecimals_roundtrip 5 2 4 (by decide)⟩

end XcmApps

namespace XcmApps

open XcmWallet

/-- Inversion of a successful `Except` bind. -/
theorem except_bind_ok {ε α β : Type} (x : Except ε α) (f : α → Except ε β) (b : β)
    (h : bind x f = .ok b) : ∃ a, x = .ok a ∧ f a = .ok b := by
  cases x with
  | error e => simp [bind, Except.bind] at h
  | ok a => exact ⟨a, rfl, h⟩

/-- A `mapM` whose body only guards on a fixed fallible action and then
returns succeeds exactly with the plain map. -/
theorem mapM_const_guard_ok {α β : Type} (g : Except Err Unit) (f : α → β)
    (l : List α) (out : List β)
    (h : l.mapM (fun p => do
          let _ ← g
          pure (f p)) = .ok out) :
    out = l.map f := by
  induction l generalizing out with
  | nil =>
      simp only [List.mapM_nil, pure, Except.pure] at h
      cases h
      rfl
  | cons a l ih =>
      rw [List.mapM_cons] at h
      obtain ⟨b, hb, h2⟩ := except_bind_ok _ _ _ h
      obtain ⟨u, _, hfa⟩ := except_bind_ok _ _ _ hb
      obtain ⟨tl, htl, hcons⟩ := except_bind_ok _ _ _ h2
      simp only [pure, Except.pure, Except.ok.injEq] at hfa hcons
      subst hfa
      cases hcons
      rw [List.map_cons, ih tl htl]

/-- Counting assets in the merged subscription list: filtering the merged
contract-call and chain-query subscriptions by asset key matches filtering
the built configurations by key and tag. -/
theorem merged_filter_count (l : List (String × BalanceBuilt)) (k : String) :
    (((l.filter fun p => p.2.type == CallType.Evm).map
        (fun p => Subscription.erc20 p.1 p.2.asContract)
      ++ (l.filter fun p => p.2.type == CallType.Substrate).map
        (fun p => Subscription.substrate p.1 p.2.asSubstrateQuery)).filter
          (fun s => s.assetKey == k)).length
      = (l.filter fun p => p.1 == k
          && (p.2.type == CallType.Evm || p.2.type == CallType.Substrate)).length := by
  induction l with
  | nil => rfl
  | cons a l ih =>
      obtain ⟨ka, cfg⟩ := a
      cases cfg with
      | evm c =>
          cases hka : (ka == k) with
          | true =>
              simp_all [List.filter_cons, List.filter_append, BalanceBuilt.type,
                Subscription.assetKey]
          | false =>
              simp_all [List.filter_cons, List.filter_append, BalanceBuilt.type,
                Subscription.assetKey]
      | substrate c =>
          cases hka : (ka == k) with
          | true =>
              simp_all [List.filter_cons, List.filter_append, BalanceBuilt.type,
                Subscription.assetKey]
              omega
          | false =>
              simp_all [List.filter_cons, List.filter_append, BalanceBuilt.type,
                Subscription.assetKey]

/-- C10: whenever `subscribeBalance` succeeds, the merged stream contains,
for every asset key, exactly one underlying subscription per configured
asset with that key whose built balance configuration is tagged `Evm` or
`Substrate` (the library's `CallType` has no further tag, so nothing else
can contribute, and no error is raised for it). -/
theorem subscribeBalance_one_per_tagged_config (env : Env) (address : String)
    (chain : AnyChain) (cc : ChainConfig) (subs : List Subscription)
    (h : subscribeBalance env address chain cc = .ok subs) :
    ∀ k : String,
      (subs.filter fun s => s.assetKey == k).length
        = ((getBalanceConfigs address chain cc).filter
            fun p => p.1 == k
              && (p.2.type == CallType.Evm || p.2.type == CallType.Substrate)).length := by
  intro k
  simp only [subscribeBalance] at h
  obtain ⟨erc, herc, hrest⟩ := except_bind_ok _ _ _ h
  simp only [pure, Except.pure, Except.ok.injEq] at hrest
  have hmap := mapM_const_guard_ok (getEvmClient env chain) _ _ _ herc
  subst hmap
  cases hrest
  exact merged_filter_count (getBalanceConfigs address chain cc) k

end XcmApps

namespace XcmApps

open XcmWallet

/-- Fixture chain configuration with one contract-call asset and one
chain-query asset. -/
def ccFx : ChainConfig := ⟨[⟨assetX, evmBalanceBuilder⟩, ⟨assetFee, substrateBalanceBuilder⟩]⟩

/-- Witness for C10 at the fixture chain configuration. -/
theorem subscribeBalance_one_per_tagged_config_witness :
    subscribeBalance envA "alice" chainA ccFx
      = .ok [.erc20 "X" ⟨"0xerc20", "balanceOf", ["alice", "X"]⟩,
             .substrate "FEE" ⟨"tokens", "accounts", ["alice", "FEE"]⟩] ∧
    ((([.erc20 "X" ⟨"0xerc20", "balanceOf", ["alice", "X"]⟩,
        .substrate "FEE" ⟨"tokens", "accounts", ["alice", "FEE"]⟩] : List Subscription).filter
          fun s => s.assetKey == "X").length
      = ((getBalanceConfigs "alice" chainA ccFx).filter
          fun p => p.1 == "X"
            && (p.2.type == CallType.Evm || p.2.type == CallType.Substrate)).length) :=
  ⟨rfl, subscribeBalance_one_per_tagged_config envA "alice" chainA ccFx _ rfl "X"⟩

end XcmApps
